import Mathlib

/-!
Verification of the compensation calculation engine of the flight-attendant
trip comparison tool.

The engine is the function `calculateTripPay` of `src/script.js` together
with the best-value selection loop of `renderTrips` (same file).  The
repository carries two further, divergent reimplementations of the pay
formula in the concatenated sources of `src/unnamed/part_003`; the claims
are settled against the `src/script.js` implementation, which is the
primary engine, and the divergences are recorded in the development notes.

The embedding mirrors the source line by line:

* JavaScript numbers are modelled as exact rationals; a numeric field that
  is missing or does not parse (JS `NaN`) is modelled as `none` of an
  `Option` type, and the JS `x || d` idiom (which replaces both `NaN` and
  `0` by `d`) is the function `jsOrInt` / `jsOrRat` below.
* String-typed fields (the `'Yes'`/`'No'` toggle strings, `payYear`,
  `aircraftType`) are `Option String`, `none` standing for a missing field
  (JS `undefined`).  JS truthiness of such a value (`undefined` and `""`
  are falsy, every other string truthy) is `jsTruthy`.
* The only place a `NaN` can survive into the result of `calculateTripPay`
  is `netPayEstimate` (the source parses `retirementPercentage` and
  `taxRate` without a `|| 0` guard), so that field of the result is an
  `Option ℚ`, `none` standing for `NaN`.
-/

namespace FlightPay

/-- JS `parseInt(x) || d`: a missing / unparseable value (`NaN`) and a
parsed `0` are both falsy and replaced by the default `d`. -/
def jsOrInt (o : Option Int) (d : Int) : Int :=
  match o with
  | none => d
  | some n => if n = 0 then d else n

/-- JS `parseFloat(x) || d`: `NaN` and `0` are falsy and replaced by `d`. -/
def jsOrRat (o : Option ℚ) (d : ℚ) : ℚ :=
  match o with
  | none => d
  | some q => if q = 0 then d else q

/-- JS `s || d` on a string field: `undefined` and `""` are falsy. -/
def jsOrStr (o : Option String) (d : String) : String :=
  match o with
  | none => d
  | some s => if s = "" then d else s

/-- JS truthiness of a string-typed field: `undefined` and `""` are falsy,
every other string (including `"No"`) is truthy. -/
def jsTruthy (o : Option String) : Bool :=
  match o with
  | none => false
  | some s => s != ""

/-- The helper `utils.parseHM` of `src/script.js`:
`(parseInt(hours) || 0) + (parseInt(minutes) || 0) / 60`. -/
def parseHM (h m : Option Int) : ℚ :=
  (jsOrInt h 0 : ℚ) + (jsOrInt m 0 : ℚ) / 60

/-- One entry of the `PAY_RATES` table of `src/script.js`. -/
structure PayRate where
  baseRate : ℚ
  flagRate : ℚ
deriving DecidableEq

/-- The `PAY_RATES` object literal of `src/script.js` (identical to the
`masterPayData` table of the second monolithic script in
`src/unnamed/part_003`): a partial map from seniority-year label to
rates. -/
def PAY_RATES : String → Option PayRate
  | "Year 1" => some ⟨2888/100, 4332/100⟩
  | "Year 2" => some ⟨3064/100, 4596/100⟩
  | "Year 3" => some ⟨3259/100, 4889/100⟩
  | "Year 4" => some ⟨3471/100, 5207/100⟩
  | "Year 5" => some ⟨3825/100, 5738/100⟩
  | "Year 6" => some ⟨4330/100, 6495/100⟩
  | "Year 7" => some ⟨4841/100, 7262/100⟩
  | "Year 8" => some ⟨4996/100, 7494/100⟩
  | "Year 9" => some ⟨5134/100, 7701/100⟩
  | "Year 10" => some ⟨5326/100, 7989/100⟩
  | "Year 11" => some ⟨5473/100, 8210/100⟩
  | "Year 12" => some ⟨5733/100, 8600/100⟩
  | "Year 13+" => some ⟨6711/100, 10067/100⟩
  | _ => none

/-- `CONSTANTS.DOMESTIC_PER_DIEM` of `src/script.js` ($2.40/hr). -/
def DOMESTIC_PER_DIEM : ℚ := 240/100

/-- `CONSTANTS.INTERNATIONAL_PER_DIEM` of `src/script.js` ($2.90/hr). -/
def INTERNATIONAL_PER_DIEM : ℚ := 290/100

/-- `GALLEY_RATE` from the configuration section of the repository
(`const GALLEY_RATE = 2.50; // $2.50 per hour for galley work`, in
`src/unnamed/part_003`), the only galley rate constant the repository
defines. -/
def GALLEY_RATE : ℚ := 250/100

/-- A stored trip record exactly as `getFormData` of `src/script.js` builds
it: every field is the raw form value.  Numeric fields are modelled by the
result of the parse the engine applies to them (`none` = missing or
unparseable, i.e. the parse yields `NaN`), toggle fields are the stored
`'Yes'`/`'No'` strings (`none` = field absent). -/
structure TripData where
  id : String
  name : Option String
  payYear : Option String
  tripLength : Option Int
  creditedHoursHours : Option Int
  creditedHoursMinutes : Option Int
  tafbHours : Option Int
  tafbMinutes : Option Int
  whiteFlag : Option String
  purpleFlag : Option String
  galleyPay : Option String
  purserPay : Option String
  intlOverride : Option String
  intlPayOverride : Option String
  languagePay : Option String
  holidayPay : Option String
  purpleFlagPremium : Option ℚ
  aircraftType : Option String
  galleyHoursHours : Option Int
  galleyHoursMinutes : Option Int
  purserUSHours : Option ℚ
  purserNonUSHours : Option ℚ
  holidayHours : Option ℚ
  retirementPercentage : Option ℚ
  taxRate : Option ℚ
deriving DecidableEq

/-- The rate lookup of `src/script.js` lines 528-529:
`PAY_RATES[tripData.payYear || 'Year 1'] || PAY_RATES["Year 1"]`
(the fallback value is the `"Year 1"` entry). -/
def lookupPayData (t : TripData) : PayRate :=
  match PAY_RATES (jsOrStr t.payYear "Year 1") with
  | some r => r
  | none => ⟨2888/100, 4332/100⟩

/-- `creditedHours = utils.parseHM(creditedHoursHours, creditedHoursMinutes)`
(`src/script.js` line 532). -/
def creditedHoursDec (t : TripData) : ℚ :=
  parseHM t.creditedHoursHours t.creditedHoursMinutes

/-- `dutyHours = utils.parseHM(tafbHours, tafbMinutes)`
(`src/script.js` line 533). -/
def dutyHoursDec (t : TripData) : ℚ :=
  parseHM t.tafbHours t.tafbMinutes

/-- The galley hour/minute pair converted to decimal hours
(`src/script.js` line 544). -/
def galleyHoursDec (t : TripData) : ℚ :=
  parseHM t.galleyHoursHours t.galleyHoursMinutes

/-- `tripLength = parseInt(tripData.tripLength) || 1` (`src/script.js`
line 534): a missing or unparseable value and a parsed `0` both fall back
to `1`. -/
def parsedTripLength (t : TripData) : Int :=
  jsOrInt t.tripLength 1

/-- `flagMultiplier = (tripData.whiteFlag ? 1.5 : 1) *
(tripData.purpleFlag ? parseFloat(tripData.purpleFlagPremium) || 1.5 : 1)`
(`src/script.js` line 538).  Note that the source tests JS truthiness of
the stored `'Yes'`/`'No'` strings here, not equality with `'Yes'`. -/
def flagMultiplier (t : TripData) : ℚ :=
  (if jsTruthy t.whiteFlag then 3/2 else 1) *
  (if jsTruthy t.purpleFlag then jsOrRat t.purpleFlagPremium (3/2) else 1)

/-- `effectiveRate = baseRate * flagMultiplier` (`src/script.js` line 539). -/
def effRate (t : TripData) : ℚ :=
  (lookupPayData t).baseRate * flagMultiplier t

/-- The purser rate pair: `rates[tripData.aircraftType] || rates['Narrow1']`
with `rates = { 'Narrow1': [1, 2], 'Narrow2': [2, 3], 'Wide': [3, 4] }`
(`src/script.js` lines 556-557). -/
def purserAircraftRates (o : Option String) : ℚ × ℚ :=
  match o with
  | some "Narrow1" => (1, 2)
  | some "Narrow2" => (2, 3)
  | some "Wide" => (3, 4)
  | _ => (1, 2)

/-- The object returned by `calculateTripPay` of `src/script.js`.
`netPayEstimate` is an `Option ℚ` because the source computes it from
`parseFloat(retirementPercentage)` and `parseFloat(taxRate)` without a
`|| 0` guard, so it is `NaN` (here `none`) when either field is missing. -/
structure PayBreakdown where
  basePay : ℚ
  galleyPay : ℚ
  purserPay : ℚ
  perDiem : ℚ
  languagePay : ℚ
  intlOverridePay : ℚ
  holidayPay : ℚ
  baseRate : ℚ
  effectiveRate : ℚ
  totalGrossPay : ℚ
  netPayEstimate : Option ℚ
  hourlyValue : ℚ
  perDayValue : ℚ
deriving DecidableEq

/-- The pay calculation engine: `calculateTripPay` of `src/script.js`
(lines 526-582), translated clause by clause. -/
def calculateTripPay (t : TripData) : PayBreakdown :=
  let creditedHours := creditedHoursDec t
  let dutyHours := dutyHoursDec t
  let tripLength := parsedTripLength t
  let baseRate := (lookupPayData t).baseRate
  let effectiveRate := effRate t
  let basePay := creditedHours * effectiveRate
  let galleyPay := if t.galleyPay = some "Yes" then galleyHoursDec t else 0
  let purserPay :=
    if t.purserPay = some "Yes" then
      let purserUS := jsOrRat t.purserUSHours 0
      let purserNonUS := jsOrRat t.purserNonUSHours 0
      let rates := purserAircraftRates t.aircraftType
      purserUS * rates.1 + purserNonUS * rates.2
    else 0
  let perDiem := dutyHours *
    (if t.intlOverride = some "Yes" then INTERNATIONAL_PER_DIEM else DOMESTIC_PER_DIEM)
  let languagePay := if t.languagePay = some "Yes" then creditedHours * (5/2) else 0
  let intlOverridePay := if t.intlPayOverride = some "Yes" then creditedHours * 2 else 0
  let holidayPay :=
    if t.holidayPay = some "Yes" ∧ 0 < dutyHours then
      (effectiveRate * creditedHours / dutyHours) * jsOrRat t.holidayHours 0
    else 0
  let totalGrossPay :=
    basePay + galleyPay + purserPay + perDiem + languagePay + intlOverridePay + holidayPay
  let netPayEstimate : Option ℚ :=
    match t.retirementPercentage, t.taxRate with
    | some r, some tax => some ((totalGrossPay - totalGrossPay * (r / 100)) * (1 - tax / 100))
    | _, _ => none
  { basePay := basePay
    galleyPay := galleyPay
    purserPay := purserPay
    perDiem := perDiem
    languagePay := languagePay
    intlOverridePay := intlOverridePay
    holidayPay := holidayPay
    baseRate := baseRate
    effectiveRate := effectiveRate
    totalGrossPay := totalGrossPay
    netPayEstimate := netPayEstimate
    hourlyValue := if 0 < creditedHours then totalGrossPay / creditedHours else 0
    perDayValue := if 0 < tripLength then totalGrossPay / (tripLength : ℚ) else 0 }

/-- The best-value accumulator loop of `renderTrips` (`src/script.js`
lines 798-808): `bestValueTripId` starts `null` and `bestMetric` starts
`-Infinity`, so the first trip always replaces the starting accumulator
(every rational `perDayValue` exceeds `-Infinity`); afterwards a trip
replaces the accumulator exactly when its `perDayValue` is strictly
greater.  The accumulator state `none` models the starting
`(null, -Infinity)` pair. -/
def findBestAux : Option (String × ℚ) → List TripData → Option (String × ℚ)
  | best, [] => best
  | none, t :: rest =>
      findBestAux (some (t.id, (calculateTripPay t).perDayValue)) rest
  | some (bid, bm), t :: rest =>
      if bm < (calculateTripPay t).perDayValue then
        findBestAux (some (t.id, (calculateTripPay t).perDayValue)) rest
      else
        findBestAux (some (bid, bm)) rest

/-- The trip id selected as best value by `renderTrips`. -/
def bestValueTripId (trips : List TripData) : Option String :=
  (findBestAux none trips).map Prod.fst

/-- `trip.id === bestValueTripId && state.trips.length > 1`
(`src/script.js` line 813): the condition under which the Best Value badge
is displayed on a card. -/
def showsBestValueBadge (t : TripData) (trips : List TripData) : Bool :=
  (some t.id == bestValueTripId trips) && decide (1 < trips.length)

/-- Shorthand for the ranking key of a trip: its computed `perDayValue`. -/
def pdv (t : TripData) : ℚ := (calculateTripPay t).perDayValue

/-- A concrete trip: Year 1, 10h0m credited, 12h0m TAFB, no extras,
0% retirement, 0% tax (scenario A of the specification). -/
def tripBase : TripData :=
  { id := "base", name := some "Base", payYear := some "Year 1", tripLength := some 1,
    creditedHoursHours := some 10, creditedHoursMinutes := some 0,
    tafbHours := some 12, tafbMinutes := some 0,
    whiteFlag := none, purpleFlag := none, galleyPay := none, purserPay := none,
    intlOverride := none, intlPayOverride := none, languagePay := none, holidayPay := none,
    purpleFlagPremium := none, aircraftType := none,
    galleyHoursHours := none, galleyHoursMinutes := none,
    purserUSHours := none, purserNonUSHours := none, holidayHours := none,
    retirementPercentage := some 0, taxRate := some 0 }

/-- A trip whose only pay component is 1000 galley hours, so that
`totalGrossPay = 1000`, with 10% retirement and 20% tax. -/
def trip1000 : TripData :=
  { tripBase with
    id := "g1000"
    payYear := none
    creditedHoursHours := none
    creditedHoursMinutes := none
    tafbHours := none
    tafbMinutes := none
    tripLength := none
    galleyPay := some "Yes"
    galleyHoursHours := some 1000
    galleyHoursMinutes := some 0
    retirementPercentage := some 10
    taxRate := some 20 }

/-- A trip with zero TAFB duty time but holiday pay enabled with 4 holiday
hours. -/
def tripDutyZero : TripData :=
  { tripBase with
    id := "dz"
    tafbHours := none
    tafbMinutes := none
    holidayPay := some "Yes"
    holidayHours := some 4 }

/-- A trip whose trip-length field holds the literal input `0`. -/
def tripLenZero : TripData :=
  { tripBase with
    id := "lz"
    tripLength := some 0 }

/-- A trip with galley pay enabled and 2h0m of galley hours. -/
def tripGalley : TripData :=
  { tripBase with
    id := "gal"
    galleyPay := some "Yes"
    galleyHoursHours := some 2
    galleyHoursMinutes := some 0 }

/-- A trip whose two flag toggles are off: the form stores the string
`'No'` for an unchecked toggle, and the premium dropdown default `'1.5'`. -/
def tripNoFlags : TripData :=
  { tripBase with
    id := "nf"
    whiteFlag := some "No"
    purpleFlag := some "No"
    purpleFlagPremium := some (3/2) }

/-- A trip whose retirement and tax fields are absent (for instance the
untouched form inputs serialize as the empty string). -/
def tripNoRetTax : TripData :=
  { tripBase with
    id := "nrt"
    retirementPercentage := none
    taxRate := none }

/-- A trip whose pay-year label is not a key of the `PAY_RATES` table. -/
def tripYearX : TripData :=
  { tripBase with
    id := "yx"
    payYear := some "Year 99" }

/-- A two-trip comparison list. -/
def tripsPair : List TripData := [tripBase, tripGalley]

/-- C1: for a trip whose retirement and tax fields parse to `r` and `tax`,
the engine computes `netPayEstimate = totalGrossPay * (1 - r/100) *
(1 - tax/100)`: the retirement deduction is taken from the gross first and
the tax rate is then applied to the remainder, never to the gross. -/
theorem netPay_applies_tax_after_retirement (t : TripData) (r tax : ℚ)
    (hr : t.retirementPercentage = some r) (ht : t.taxRate = some tax) :
    (calculateTripPay t).netPayEstimate =
      some ((calculateTripPay t).totalGrossPay * (1 - r / 100) * (1 - tax / 100)) := by
  simp only [calculateTripPay, hr, ht]
  congr 1
  ring

/-- C1 witness: a trip with `totalGrossPay = 1000`, 10% retirement and 20%
tax has `netPayEstimate = (1000 - 100) * 0.8 = 720`. -/
theorem netPay_applies_tax_after_retirement_witness :
    trip1000.retirementPercentage = some 10 ∧ trip1000.taxRate = some 20
    ∧ (calculateTripPay trip1000).netPayEstimate =
        some ((calculateTripPay trip1000).totalGrossPay * (1 - 10 / 100) * (1 - 20 / 100))
    ∧ (calculateTripPay trip1000).totalGrossPay = 1000
    ∧ (calculateTripPay trip1000).netPayEstimate = some 720 := by
  have hg : (calculateTripPay trip1000).totalGrossPay = 1000 := by
    simp [calculateTripPay, creditedHoursDec, dutyHoursDec, galleyHoursDec, effRate,
      lookupPayData, flagMultiplier, parseHM, jsOrInt, jsOrStr, jsTruthy, jsOrRat,
      PAY_RATES, parsedTripLength, DOMESTIC_PER_DIEM, trip1000, tripBase]
  have hn := netPay_applies_tax_after_retirement trip1000 10 20 rfl rfl
  refine ⟨rfl, rfl, hn, hg, ?_⟩
  rw [hn, hg]
  norm_num

/-- C2: the claim that the white-flag multiplier is applied exactly when
`whiteFlag` is true fails on `src/script.js`, which tests JS truthiness of
the stored `'Yes'`/`'No'` strings: a trip saved with both toggles off
(`whiteFlag = 'No'`, `purpleFlag = 'No'`) still receives the 1.5 white
multiplier and the 1.5 purple premium, so its `effectiveRate` is
`2.25 * baseRate` instead of `baseRate`. -/
theorem whiteFlag_no_trip_still_gets_flag_multiplier :
    tripNoFlags.whiteFlag = some "No" ∧ tripNoFlags.purpleFlag = some "No"
    ∧ (calculateTripPay tripNoFlags).baseRate = 2888 / 100
    ∧ (calculateTripPay tripNoFlags).effectiveRate = 2888 / 100 * (9 / 4)
    ∧ (calculateTripPay tripNoFlags).effectiveRate ≠ (calculateTripPay tripNoFlags).baseRate := by
  have hb : (calculateTripPay tripNoFlags).baseRate = 2888 / 100 := by
    simp [calculateTripPay, lookupPayData, jsOrStr, PAY_RATES, tripNoFlags, tripBase]
  have he : (calculateTripPay tripNoFlags).effectiveRate = 2888 / 100 * (9 / 4) := by
    simp [calculateTripPay, effRate, lookupPayData, flagMultiplier, jsTruthy, jsOrRat,
      jsOrStr, PAY_RATES, tripNoFlags, tripBase]
    norm_num
  refine ⟨rfl, rfl, hb, he, ?_⟩
  rw [hb, he]
  norm_num

/-- C3: a trip whose TAFB duty hours evaluate to 0 gets `holidayPay = 0`,
whatever `holidayHours` holds and whether or not holiday pay is enabled:
the prorated holiday formula is guarded by `dutyHours > 0` and is never
evaluated with a zero denominator. -/
theorem holidayPay_zero_when_duty_zero (t : TripData)
    (h : dutyHoursDec t = 0) :
    (calculateTripPay t).holidayPay = 0 := by
  simp [calculateTripPay, h]

/-- C3 witness: a trip with empty TAFB fields, holiday pay enabled and 4
holiday hours still has `holidayPay = 0`. -/
theorem holidayPay_zero_when_duty_zero_witness :
    dutyHoursDec tripDutyZero = 0
    ∧ tripDutyZero.holidayPay = some "Yes"
    ∧ tripDutyZero.holidayHours = some 4
    ∧ (calculateTripPay tripDutyZero).holidayPay = 0 := by
  have hd : dutyHoursDec tripDutyZero = 0 := by
    simp [dutyHoursDec, parseHM, jsOrInt, tripDutyZero, tripBase]
  exact ⟨hd, rfl, rfl, holidayPay_zero_when_duty_zero tripDutyZero hd⟩

/-- C4: for every trip, `totalGrossPay` is exactly (not merely within
1e-9) the sum of the seven returned component pays, with no hidden
contribution. -/
theorem totalGrossPay_is_sum_of_seven_components (t : TripData) :
    (calculateTripPay t).totalGrossPay =
      (calculateTripPay t).basePay + (calculateTripPay t).galleyPay
      + (calculateTripPay t).purserPay + (calculateTripPay t).languagePay
      + (calculateTripPay t).intlOverridePay + (calculateTripPay t).perDiem
      + (calculateTripPay t).holidayPay := by
  simp only [calculateTripPay]
  ring

/-- C5: a trip whose `payYear` is missing, empty, or not a key of
`PAY_RATES` is calculated exactly as the identical trip with `payYear` set
to `'Year 1'`: the lookup falls back instead of throwing or zeroing the
result. -/
theorem unknown_payYear_same_as_year1 (t : TripData)
    (h : ∀ s : String, t.payYear = some s → PAY_RATES s = none) :
    calculateTripPay t = calculateTripPay { t with payYear := some "Year 1" } := by
  have h1 : PAY_RATES "Year 1" = some ⟨2888/100, 4332/100⟩ := rfl
  have hl : lookupPayData t = lookupPayData { t with payYear := some "Year 1" } := by
    unfold lookupPayData
    cases hp : t.payYear with
    | none => simp [jsOrStr, hp, h1]
    | some s =>
      by_cases hs : s = ""
      · simp [jsOrStr, hp, hs, h1]
      · simp [jsOrStr, hp, hs, h s hp, h1]
  have hfm : flagMultiplier { t with payYear := some "Year 1" } = flagMultiplier t := rfl
  have heff : effRate t = effRate { t with payYear := some "Year 1" } := by
    unfold effRate
    rw [hl, hfm]
  have hcc : creditedHoursDec { t with payYear := some "Year 1" } = creditedHoursDec t := rfl
  have hdd : dutyHoursDec { t with payYear := some "Year 1" } = dutyHoursDec t := rfl
  have hgg : galleyHoursDec { t with payYear := some "Year 1" } = galleyHoursDec t := rfl
  have hpp : parsedTripLength { t with payYear := some "Year 1" } = parsedTripLength t := rfl
  simp only [calculateTripPay, hl, heff, hcc, hdd, hgg, hpp]

/-- C5 witness: the unknown label `'Year 99'` gives the same breakdown as
`'Year 1'`. -/
theorem unknown_payYear_same_as_year1_witness :
    tripYearX.payYear = some "Year 99" ∧ PAY_RATES "Year 99" = none
    ∧ calculateTripPay tripYearX =
        calculateTripPay { tripYearX with payYear := some "Year 1" } := by
  refine ⟨rfl, rfl, unknown_payYear_same_as_year1 tripYearX ?_⟩
  intro s hs
  simp [tripYearX, tripBase] at hs
  subst hs
  rfl

/-- C6 counterexample: the engine does not multiply the galley hours by the
configured galley rate.  With galley pay enabled and 2h0m of galley hours,
`galleyPay` is 2 (the raw hours), not `2 * GALLEY_RATE = 5` as the claim
(galley hours times the rate table's `galleyRate` of $2.50) predicts. -/
theorem galleyPay_not_times_galley_rate :
    (calculateTripPay tripGalley).galleyPay = 2
    ∧ galleyHoursDec tripGalley = 2
    ∧ GALLEY_RATE = 5 / 2
    ∧ (calculateTripPay tripGalley).galleyPay ≠ galleyHoursDec tripGalley * GALLEY_RATE := by
  have h1 : (calculateTripPay tripGalley).galleyPay = 2 := by
    simp [calculateTripPay, galleyHoursDec, parseHM, jsOrInt, tripGalley, tripBase]
  have h2 : galleyHoursDec tripGalley = 2 := by
    simp [galleyHoursDec, parseHM, jsOrInt, tripGalley, tripBase]
  refine ⟨h1, h2, by norm_num [GALLEY_RATE], ?_⟩
  rw [h1, h2]
  norm_num [GALLEY_RATE]

/-- C6 amended: `galleyPay` equals the raw decimal galley hours (an
implicit rate of 1 per hour) when galley pay is enabled and 0 when it is
disabled; the configured `GALLEY_RATE` of 2.50 is never consulted by the
engine. -/
theorem galleyPay_is_raw_galley_hours (t : TripData) :
    (calculateTripPay t).galleyPay =
      if t.galleyPay = some "Yes" then galleyHoursDec t else 0 := by
  simp [calculateTripPay]

/-- C7: the claim that a missing numeric field is replaced by 0 fails for
`retirementPercentage` and `taxRate`: `src/script.js` parses exactly these
two fields without a `|| 0` guard, so a trip with both fields absent gets
`netPayEstimate = NaN` (modelled as `none`) rather than
`netPayEstimate = totalGrossPay`. -/
theorem missing_retirement_tax_yields_nan :
    tripNoRetTax.retirementPercentage = none ∧ tripNoRetTax.taxRate = none
    ∧ (calculateTripPay tripNoRetTax).totalGrossPay = 1588 / 5
    ∧ (calculateTripPay tripNoRetTax).netPayEstimate = none
    ∧ ∀ q : ℚ, (calculateTripPay tripNoRetTax).netPayEstimate ≠ some q := by
  have hg : (calculateTripPay tripNoRetTax).totalGrossPay = 1588 / 5 := by
    simp [calculateTripPay, creditedHoursDec, dutyHoursDec, galleyHoursDec, effRate,
      lookupPayData, flagMultiplier, parseHM, jsOrInt, jsOrStr, jsTruthy, jsOrRat,
      PAY_RATES, parsedTripLength, DOMESTIC_PER_DIEM, tripNoRetTax, tripBase]
    norm_num
  have hn : (calculateTripPay tripNoRetTax).netPayEstimate = none := by
    simp [calculateTripPay, tripNoRetTax, tripBase]
  exact ⟨rfl, rfl, hg, hn, fun q => by simp [hn]⟩

lemma findBestAux_spec (ts : List TripData) : ∀ (bid : String) (bm : ℚ),
    ((∀ j : Fin ts.length, pdv (ts.get j) ≤ bm)
      ∧ findBestAux (some (bid, bm)) ts = some (bid, bm))
    ∨ (∃ i : Fin ts.length,
        findBestAux (some (bid, bm)) ts = some ((ts.get i).id, pdv (ts.get i))
        ∧ bm < pdv (ts.get i)
        ∧ (∀ j : Fin ts.length, pdv (ts.get j) ≤ pdv (ts.get i))
        ∧ (∀ j : Fin ts.length, (j : ℕ) < (i : ℕ) → pdv (ts.get j) < pdv (ts.get i))) := by
  induction ts with
  | nil =>
    intro bid bm
    left
    exact ⟨fun j => absurd j.2 (by simp), rfl⟩
  | cons t rest ih =>
    intro bid bm
    have hstep : findBestAux (some (bid, bm)) (t :: rest) =
        if bm < pdv t then findBestAux (some (t.id, pdv t)) rest
        else findBestAux (some (bid, bm)) rest := rfl
    by_cases hlt : bm < pdv t
    · rw [hstep, if_pos hlt]
      rcases ih t.id (pdv t) with ⟨hall, heq⟩ | ⟨i, heq, hgt, hmax, hfirst⟩
      · right
        refine ⟨⟨0, Nat.succ_pos rest.length⟩, heq, hlt, ?_, ?_⟩
        · intro j
          obtain ⟨jv, hj⟩ := j
          cases jv with
          | zero => exact le_refl _
          | succ k =>
            exact hall ⟨k, by simp only [List.length_cons] at hj; omega⟩
        · intro j hjlt
          have h0 : (j : ℕ) < 0 := hjlt
          exact absurd h0 (Nat.not_lt_zero _)
      · right
        refine ⟨⟨i.1 + 1, Nat.succ_lt_succ i.2⟩, heq, lt_trans hlt hgt, ?_, ?_⟩
        · intro j
          obtain ⟨jv, hj⟩ := j
          cases jv with
          | zero => exact le_of_lt hgt
          | succ k =>
            exact hmax ⟨k, by simp only [List.length_cons] at hj; omega⟩
        · intro j hjlt
          obtain ⟨jv, hj⟩ := j
          cases jv with
          | zero => exact hgt
          | succ k =>
            have hk : k < rest.length := by simp only [List.length_cons] at hj; omega
            have hlt2 : k + 1 < (i : ℕ) + 1 := hjlt
            exact hfirst ⟨k, hk⟩ (show k < (i : ℕ) by omega)
    · rw [hstep, if_neg hlt]
      have hle : pdv t ≤ bm := le_of_not_lt hlt
      rcases ih bid bm with ⟨hall, heq⟩ | ⟨i, heq, hgt, hmax, hfirst⟩
      · left
        refine ⟨?_, heq⟩
        intro j
        obtain ⟨jv, hj⟩ := j
        cases jv with
        | zero => exact hle
        | succ k =>
          exact hall ⟨k, by simp only [List.length_cons] at hj; omega⟩
      · right
        refine ⟨⟨i.1 + 1, Nat.succ_lt_succ i.2⟩, heq, hgt, ?_, ?_⟩
        · intro j
          obtain ⟨jv, hj⟩ := j
          cases jv with
          | zero => exact le_trans hle (le_of_lt hgt)
          | succ k =>
            exact hmax ⟨k, by simp only [List.length_cons] at hj; omega⟩
        · intro j hjlt
          obtain ⟨jv, hj⟩ := j
          cases jv with
          | zero => exact lt_of_le_of_lt hle hgt
          | succ k =>
            have hk : k < rest.length := by simp only [List.length_cons] at hj; omega
            have hlt2 : k + 1 < (i : ℕ) + 1 := hjlt
            exact hfirst ⟨k, hk⟩ (show k < (i : ℕ) by omega)

/-- C8: for a non-empty trip list, `renderTrips` selects as best value the
first trip in list order whose `perDayValue` is maximal (the accumulator
is replaced only under strict `>`), and the Best Value badge on a card
entails both that the card is the selected trip and that the list holds
more than one trip. -/
theorem best_value_is_first_max_perDayValue (ts : List TripData) (h : ts ≠ []) :
    (∃ i : Fin ts.length,
      bestValueTripId ts = some ((ts.get i).id)
      ∧ (∀ j : Fin ts.length,
          (calculateTripPay (ts.get j)).perDayValue ≤ (calculateTripPay (ts.get i)).perDayValue)
      ∧ (∀ j : Fin ts.length, (j : ℕ) < (i : ℕ) →
          (calculateTripPay (ts.get j)).perDayValue < (calculateTripPay (ts.get i)).perDayValue))
    ∧ (∀ t : TripData, showsBestValueBadge t ts = true →
        bestValueTripId ts = some t.id ∧ 1 < ts.length) := by
  constructor
  · match ts, h with
    | t :: rest, _ =>
      have hstart : bestValueTripId (t :: rest) =
          (findBestAux (some (t.id, pdv t)) rest).map Prod.fst := rfl
      rcases findBestAux_spec rest t.id (pdv t) with ⟨hall, heq⟩ | ⟨i, heq, hgt, hmax, hfirst⟩
      · refine ⟨⟨0, Nat.succ_pos rest.length⟩, ?_, ?_, ?_⟩
        · rw [hstart, heq]
          exact rfl
        · intro j
          obtain ⟨jv, hj⟩ := j
          cases jv with
          | zero => exact le_refl _
          | succ k =>
            exact hall ⟨k, by simp only [List.length_cons] at hj; omega⟩
        · intro j hjlt
          have h0 : (j : ℕ) < 0 := hjlt
          exact absurd h0 (Nat.not_lt_zero _)
      · refine ⟨⟨i.1 + 1, Nat.succ_lt_succ i.2⟩, ?_, ?_, ?_⟩
        · rw [hstart, heq]
          exact rfl
        · intro j
          obtain ⟨jv, hj⟩ := j
          cases jv with
          | zero => exact le_of_lt hgt
          | succ k =>
            exact hmax ⟨k, by simp only [List.length_cons] at hj; omega⟩
        · intro j hjlt
          obtain ⟨jv, hj⟩ := j
          cases jv with
          | zero => exact hgt
          | succ k =>
            have hk : k < rest.length := by simp only [List.length_cons] at hj; omega
            have hlt2 : k + 1 < (i : ℕ) + 1 := hjlt
            exact hfirst ⟨k, hk⟩ (show k < (i : ℕ) by omega)
  · intro t ht
    unfold showsBestValueBadge at ht
    rw [Bool.and_eq_true, beq_iff_eq, decide_eq_true_eq] at ht
    exact ⟨ht.1.symm, ht.2⟩

/-- C8 witness: the two-trip list instantiates the best-value theorem. -/
theorem best_value_is_first_max_perDayValue_witness :
    (∃ i : Fin tripsPair.length,
      bestValueTripId tripsPair = some ((tripsPair.get i).id)
      ∧ (∀ j : Fin tripsPair.length,
          (calculateTripPay (tripsPair.get j)).perDayValue
            ≤ (calculateTripPay (tripsPair.get i)).perDayValue)
      ∧ (∀ j : Fin tripsPair.length, (j : ℕ) < (i : ℕ) →
          (calculateTripPay (tripsPair.get j)).perDayValue
            < (calculateTripPay (tripsPair.get i)).perDayValue))
    ∧ (∀ t : TripData, showsBestValueBadge t tripsPair = true →
        bestValueTripId tripsPair = some t.id ∧ 1 < tripsPair.length) :=
  best_value_is_first_max_perDayValue tripsPair (by simp [tripsPair])

lemma PAY_RATES_baseRate_nonneg (s : String) (r : PayRate)
    (h : PAY_RATES s = some r) : 0 ≤ r.baseRate := by
  unfold PAY_RATES at h
  split at h
  case h_14 => exact absurd h (by simp)
  all_goals injection h with h2
  all_goals subst h2
  all_goals norm_num

lemma lookupPayData_baseRate_nonneg (t : TripData) :
    0 ≤ (lookupPayData t).baseRate := by
  cases hr : PAY_RATES (jsOrStr t.payYear "Year 1") with
  | none =>
    simp [lookupPayData, hr]
    norm_num
  | some r =>
    simp [lookupPayData, hr]
    exact PAY_RATES_baseRate_nonneg _ r hr

lemma purserAircraftRates_nonneg (o : Option String) :
    0 ≤ (purserAircraftRates o).1 ∧ 0 ≤ (purserAircraftRates o).2 := by
  unfold purserAircraftRates
  split <;> norm_num

/-- C9: for a trip whose parsed hour, purser-hour, holiday-hour and premium
values are non-negative (as the form guarantees), every one of the seven
component pays is non-negative, and each flag-conditioned component is 0
whenever its enable flag is not `'Yes'`. -/
theorem components_nonneg_and_gated (t : TripData)
    (hch : 0 ≤ creditedHoursDec t) (hdh : 0 ≤ dutyHoursDec t)
    (hgh : 0 ≤ galleyHoursDec t)
    (hus : 0 ≤ jsOrRat t.purserUSHours 0) (hnus : 0 ≤ jsOrRat t.purserNonUSHours 0)
    (hhh : 0 ≤ jsOrRat t.holidayHours 0)
    (hpm : 0 ≤ jsOrRat t.purpleFlagPremium (3/2)) :
    (0 ≤ (calculateTripPay t).basePay
    ∧ 0 ≤ (calculateTripPay t).galleyPay
    ∧ 0 ≤ (calculateTripPay t).purserPay
    ∧ 0 ≤ (calculateTripPay t).languagePay
    ∧ 0 ≤ (calculateTripPay t).intlOverridePay
    ∧ 0 ≤ (calculateTripPay t).perDiem
    ∧ 0 ≤ (calculateTripPay t).holidayPay)
    ∧ (t.galleyPay ≠ some "Yes" → (calculateTripPay t).galleyPay = 0)
    ∧ (t.purserPay ≠ some "Yes" → (calculateTripPay t).purserPay = 0)
    ∧ (t.languagePay ≠ some "Yes" → (calculateTripPay t).languagePay = 0)
    ∧ (t.intlPayOverride ≠ some "Yes" → (calculateTripPay t).intlOverridePay = 0)
    ∧ (t.holidayPay ≠ some "Yes" → (calculateTripPay t).holidayPay = 0) := by
  have hfm : 0 ≤ flagMultiplier t := by
    unfold flagMultiplier
    apply mul_nonneg
    · split <;> norm_num
    · split
      · exact hpm
      · norm_num
  have heff : 0 ≤ effRate t := mul_nonneg (lookupPayData_baseRate_nonneg t) hfm
  simp only [calculateTripPay]
  refine ⟨⟨?_, ?_, ?_, ?_, ?_, ?_, ?_⟩, ?_, ?_, ?_, ?_, ?_⟩
  · exact mul_nonneg hch heff
  · split
    · exact hgh
    · exact le_refl 0
  · split
    · exact add_nonneg (mul_nonneg hus (purserAircraftRates_nonneg t.aircraftType).1)
        (mul_nonneg hnus (purserAircraftRates_nonneg t.aircraftType).2)
    · exact le_refl 0
  · split
    · exact mul_nonneg hch (by norm_num)
    · exact le_refl 0
  · split
    · exact mul_nonneg hch (by norm_num)
    · exact le_refl 0
  · exact mul_nonneg hdh (by split <;> norm_num [INTERNATIONAL_PER_DIEM, DOMESTIC_PER_DIEM])
  · split
    · next hcond =>
      exact mul_nonneg (div_nonneg (mul_nonneg heff hch) (le_of_lt hcond.2)) hhh
    · exact le_refl 0
  · intro h; simp [h]
  · intro h; simp [h]
  · intro h; simp [h]
  · intro h; simp [h]
  · intro h; simp [h]

/-- C9 witness: the scenario-A trip instantiates the component invariant. -/
theorem components_nonneg_and_gated_witness :
    ((0 ≤ (calculateTripPay tripBase).basePay
    ∧ 0 ≤ (calculateTripPay tripBase).galleyPay
    ∧ 0 ≤ (calculateTripPay tripBase).purserPay
    ∧ 0 ≤ (calculateTripPay tripBase).languagePay
    ∧ 0 ≤ (calculateTripPay tripBase).intlOverridePay
    ∧ 0 ≤ (calculateTripPay tripBase).perDiem
    ∧ 0 ≤ (calculateTripPay tripBase).holidayPay)
    ∧ (tripBase.galleyPay ≠ some "Yes" → (calculateTripPay tripBase).galleyPay = 0)
    ∧ (tripBase.purserPay ≠ some "Yes" → (calculateTripPay tripBase).purserPay = 0)
    ∧ (tripBase.languagePay ≠ some "Yes" → (calculateTripPay tripBase).languagePay = 0)
    ∧ (tripBase.intlPayOverride ≠ some "Yes" → (calculateTripPay tripBase).intlOverridePay = 0)
    ∧ (tripBase.holidayPay ≠ some "Yes" → (calculateTripPay tripBase).holidayPay = 0)) := by
  exact components_nonneg_and_gated tripBase
    (by norm_num [creditedHoursDec, parseHM, jsOrInt, tripBase])
    (by norm_num [dutyHoursDec, parseHM, jsOrInt, tripBase])
    (by norm_num [galleyHoursDec, parseHM, jsOrInt, tripBase])
    (by norm_num [jsOrRat, tripBase])
    (by norm_num [jsOrRat, tripBase])
    (by norm_num [jsOrRat, tripBase])
    (by norm_num [jsOrRat, tripBase])

/-- C10: the trip length is parsed with fallback 1, so a missing or
unparseable field and the literal input `0` both give a parsed length of
1; for any trip whose parsed field is non-negative the parsed length is at
least 1, so the zero-length guard branch is never taken and
`perDayValue = totalGrossPay / parsedTripLength`. -/
theorem tripLength_fallback_one (t : TripData)
    (h : ∀ n : Int, t.tripLength = some n → 0 ≤ n) :
    (t.tripLength = none → parsedTripLength t = 1)
    ∧ (t.tripLength = some 0 → parsedTripLength t = 1)
    ∧ 1 ≤ parsedTripLength t
    ∧ (calculateTripPay t).perDayValue =
        (calculateTripPay t).totalGrossPay / (parsedTripLength t : ℚ) := by
  have hone : 1 ≤ parsedTripLength t := by
    unfold parsedTripLength jsOrInt
    cases ht : t.tripLength with
    | none => norm_num
    | some n =>
      have := h n ht
      by_cases hn : n = 0
      · simp [hn]
      · simp only [hn, if_false]
        omega
  refine ⟨?_, ?_, hone, ?_⟩
  · intro hn; simp [parsedTripLength, jsOrInt, hn]
  · intro hn; simp [parsedTripLength, jsOrInt, hn]
  · have hpos : 0 < parsedTripLength t := by omega
    simp [calculateTripPay, hpos]

/-- C10 witness: the literal input `0` instantiates the fallback theorem
and yields a parsed length of 1. -/
theorem tripLength_fallback_one_witness :
    ((tripLenZero.tripLength = none → parsedTripLength tripLenZero = 1)
    ∧ (tripLenZero.tripLength = some 0 → parsedTripLength tripLenZero = 1)
    ∧ 1 ≤ parsedTripLength tripLenZero
    ∧ (calculateTripPay tripLenZero).perDayValue =
        (calculateTripPay tripLenZero).totalGrossPay / (parsedTripLength tripLenZero : ℚ))
    ∧ parsedTripLength tripLenZero = 1 := by
  refine ⟨tripLength_fallback_one tripLenZero ?_, ?_⟩
  · intro n hn
    simp [tripLenZero, tripBase] at hn
    omega
  · simp [parsedTripLength, jsOrInt, tripLenZero, tripBase]

end FlightPay
